import Mathlib

/-!
Verification of the QRZ callsign-lookup client (src/qrz_lookup.py):
session-cache lifecycle (load, save, validate, acquire, orchestrate)
and the single lookup call-and-parse cycle.

Modelling conventions (shallow embedding):
* Python strings are Lean `String`; Python `.strip()` is `pstrip`
  (drop leading and trailing whitespace characters).
* An XML response body, as seen through `ElementTree`, is modelled as the
  list of its descendant elements in document order (`Xml`), each element
  carrying its tag and its optional text content (`elem.text` is `None`
  for an element with no text).  `root.find(".//tag")` is `findTag`
  (first descendant with the tag), `root.iter("tag")` restricted to the
  descendants is `iterTag`; the service's response root is always the
  fixed `QRZDatabase` wrapper, never one of the searched tags, so
  excluding the root from `iterTag` is faithful.
* Network/parse failure of the probe request (`requests.get` raising, or
  `ET.fromstring` raising) is the `none` case of an `Option Xml` response.
* The session file `./.qrz_session` is a `SessionFile`: whether it
  exists, its age in minutes (a rational, `(time.time() - mtime)/60`),
  and its text content.
* `sys.exit(1)` and uncaught Python exceptions are explicit constructors
  of the result types (`fatalExit`, `crash`).
-/

/-- Whitespace test used by `strip` (space, tab, CR, LF). -/
def pws (c : Char) : Bool := c.isWhitespace

/-- Python `str.strip()` on the underlying character list. -/
def pstripL (l : List Char) : List Char :=
  List.rdropWhile pws (l.dropWhile pws)

/-- Python `str.strip()`. -/
def pstrip (s : String) : String := ⟨pstripL s.data⟩

/-- One XML element: its tag and its text content (`none` models
`elem.text is None`, e.g. `<call/>`). -/
structure Elem where
  tag : String
  text : Option String
deriving DecidableEq

/-- A parsed XML response: the descendant elements in document order. -/
abbrev Xml := List Elem

/-- Model of `root.find(".//tag")`: first descendant element with the tag. -/
def findTag (root : Xml) (t : String) : Option Elem :=
  root.find? (fun e => e.tag == t)

/-- Model of `root.iter(tag)` restricted to descendants: all elements with the tag. -/
def iterTag (root : Xml) (t : String) : List Elem :=
  root.filter (fun e => e.tag == t)

/-- State of the session file `./.qrz_session`. -/
structure SessionFile where
  present : Bool
  ageMinutes : ℚ
  content : String
deriving DecidableEq

/-- The constant `SESSION_LIFETIME_MIN = 60`. -/
def SESSION_LIFETIME_MIN : ℚ := 60

/-- Model of `load_session()`: `None` if the file is absent or older than the
lifetime window, otherwise the file content stripped. -/
def load_session (fs : SessionFile) : Option String :=
  if fs.present = false then none
  else if fs.ageMinutes > SESSION_LIFETIME_MIN then none
  else some (pstrip fs.content)

/-- Model of `save_session(token)`: (over)writes the file with the token verbatim;
the fresh file exists with age 0. -/
def save_session (token : String) : SessionFile :=
  { present := true, ageMinutes := 0, content := token }

/-- Tests that `needle` occurs at the start of `hay`. -/
def starts_with : List Char → List Char → Bool
  | [], _ => true
  | _ :: _, [] => false
  | a :: as, b :: bs => a == b && starts_with as bs

/-- Tests that `needle` occurs somewhere in `hay` (contiguously). -/
def occurs_in (needle hay : List Char) : Bool :=
  starts_with needle hay ||
    match hay with
    | [] => false
    | _ :: t => occurs_in needle t

/-- Python `needle in hay` on strings: substring containment. -/
def str_in (needle hay : String) : Bool :=
  occurs_in needle.data hay.data

/-- One step of the `for elem in root.iter("Error")` loop body of
`session_valid`: the loop returns `False` for this element either
because `"Invalid session key" in elem.text` holds, or because
`elem.text` is `None` and the `in` test raises `TypeError`, which the
surrounding `except Exception` turns into `False`. -/
def error_triggers (e : Elem) : Bool :=
  match e.text with
  | none => true
  | some s => str_in "Invalid session key" s

/-- Model of `session_valid(session_key)`: `False` on network/parse failure
(`none` response); otherwise scans the `Error` elements and returns
`False` as soon as one triggers (marker found, or `None` text raising
inside the `try`), else `True`. -/
def session_valid (resp : Option Xml) : Bool :=
  match resp with
  | none => false
  | some root => !((iterTag root "Error").any error_triggers)

/-- Outcome of `new_session()`. -/
inductive NSResult where
  | ok (token : String)
  | fatalExit (diag : String)
  | crash
deriving DecidableEq

/-- Model of `new_session()` after the credential prompt, applied to the parsed
exchange response `exch`, its raw body `body` (printed as diagnostic on
failure), and the current session file.  No `Key` element: prints the raw
body and `sys.exit(1)` (file untouched).  `Key` with `None` text:
`key_elem.text.strip()` raises `AttributeError`, uncaught.  Otherwise
strips the key text, persists it via `save_session`, and returns it. -/
def new_session (exch : Xml) (body : String) (fs : SessionFile) :
    NSResult × SessionFile :=
  match findTag exch "Key" with
  | none => (.fatalExit body, fs)
  | some e =>
    match e.text with
    | none => (.crash, fs)
    | some t => (.ok (pstrip t), save_session (pstrip t))

/-- Outcome of `get_session()`. -/
inductive GSResult where
  | cached (token : String)
  | fresh (token : String)
  | fatalExit (diag : String)
  | crash
deriving DecidableEq

/-- Embeds a `new_session` outcome into a `get_session` outcome. -/
def lift_ns : NSResult → GSResult
  | .ok t => .fresh t
  | .fatalExit d => .fatalExit d
  | .crash => .crash

/-- Full observable behaviour of one `get_session()` run: its result,
the final session file, whether the validation probe was issued, and
whether `new_session` (the credential prompt) was entered. -/
structure GSOut where
  result : GSResult
  file : SessionFile
  probed : Bool
  prompted : Bool
deriving DecidableEq

/-- Model of `get_session()`: loads the cached token; `if session and
session_valid(session)` reuses it (note the truthiness test: an empty
loaded token short-circuits, skipping the probe); otherwise falls back
to `new_session`.  `probe` maps the token sent in the probe query to the
probe response. -/
def get_session (fs : SessionFile) (probe : String → Option Xml)
    (exch : Xml) (body : String) : GSOut :=
  match load_session fs with
  | some s =>
    if s ≠ "" then
      if session_valid (probe s) then
        { result := .cached s, file := fs, probed := true, prompted := false }
      else
        let n := new_session exch body fs
        { result := lift_ns n.1, file := n.2, probed := true, prompted := true }
    else
      let n := new_session exch body fs
      { result := lift_ns n.1, file := n.2, probed := false, prompted := true }
  | none =>
    let n := new_session exch body fs
    { result := lift_ns n.1, file := n.2, probed := false, prompted := true }

/-- The fixed record shape produced by `lookup_call`. -/
structure Record where
  call : String
  fname : String
  name : String
  addr : String
  state : String
  country : String
  timestamp : String
deriving DecidableEq

/-- Outcome of `lookup_call`. -/
inductive LUResult where
  | ok (r : Record)
  | fatalExit
  | crash
deriving DecidableEq

/-- The inner `get(tag)` of `lookup_call`:
`elem.text.strip() if elem is not None else ""`.  A present element with
`None` text makes `.strip()` raise `AttributeError` (`none` here). -/
def get_field (root : Xml) (tag : String) : Option String :=
  match findTag root tag with
  | none => some ""
  | some e => e.text.map pstrip

/-- Model of `lookup_call(session, callsign)` applied to the parsed response
`root` and the current local time string `now`.  Any `Error` element:
prints and `sys.exit(1)`.  Otherwise builds the record field by field;
a present field element with `None` text crashes (uncaught
`AttributeError`). -/
def lookup_call (root : Xml) (now : String) : LUResult :=
  if (findTag root "Error").isSome then .fatalExit
  else
    match get_field root "call", get_field root "fname", get_field root "name",
          get_field root "addr2", get_field root "state", get_field root "country" with
    | some c, some f, some n, some a, some s, some co =>
      .ok { call := c, fname := f, name := n, addr := a, state := s,
            country := co, timestamp := now }
    | _, _, _, _, _, _ => .crash

/-- The claim-level "response carries the invalid-session marker":
some `Error` element whose text contains `"Invalid session key"`. -/
def has_marker (root : Xml) : Bool :=
  (iterTag root "Error").any (fun e =>
    match e.text with
    | none => false
    | some s => str_in "Invalid session key" s)

/-- A list with no leading `p`-element is untouched by a further
`dropWhile p`, even after its trailing `p`-elements are removed. -/
lemma dropWhile_rdropWhile_of (p : α → Bool) (l : List α)
    (h : l.dropWhile p = l) :
    (List.rdropWhile p l).dropWhile p = List.rdropWhile p l := by
  obtain ⟨t, ht⟩ := List.rdropWhile_prefix p l
  cases hr : List.rdropWhile p l with
  | nil => simp
  | cons a t' =>
    have hpa : p a = false := by
      rw [hr] at ht
      rw [← ht] at h
      by_contra hc
      have hpa : p a = true := by cases hpc : p a <;> simp_all
      rw [List.cons_append, List.dropWhile_cons_of_pos hpa] at h
      have hlen := congrArg List.length h
      rw [List.length_cons] at hlen
      have hle := (List.dropWhile_sublist p (l := t' ++ t)).length_le
      omega
    rw [List.dropWhile_cons_of_neg (by simp [hpa])]

/-- Python's `strip` is idempotent on character lists. -/
lemma pstripL_idem (l : List Char) : pstripL (pstripL l) = pstripL l := by
  unfold pstripL
  rw [dropWhile_rdropWhile_of pws (l.dropWhile pws)
      (List.dropWhile_idempotent pws l),
    List.rdropWhile_idempotent]

/-- Python's `strip` is idempotent on strings. -/
lemma pstrip_idem (s : String) : pstrip (pstrip s) = pstrip s :=
  congrArg String.mk (pstripL_idem s.data)

/-- Inverting `load_session`: a returned token means the file was
present, within the lifetime window, and the token is its stripped
content. -/
lemma load_session_some (fs : SessionFile) (s : String)
    (h : load_session fs = some s) :
    fs.present = true ∧ fs.ageMinutes ≤ SESSION_LIFETIME_MIN ∧
      s = pstrip fs.content := by
  unfold load_session at h
  by_cases hp : fs.present = false
  · rw [if_pos hp] at h; exact absurd h (by simp)
  · rw [if_neg hp] at h
    by_cases ha : fs.ageMinutes > SESSION_LIFETIME_MIN
    · rw [if_pos ha] at h; exact absurd h (by simp)
    · rw [if_neg ha] at h
      exact ⟨by simpa using hp, not_lt.mp ha, (Option.some_inj.mp h).symm⟩

example : pstrip "  ab c\n" = "ab c" := by decide
example : load_session { present := true, ageMinutes := 59, content := " tok " }
    = some "tok" := by decide
example : load_session { present := true, ageMinutes := 61, content := "tok" }
    = none := by decide
example : session_valid (some [⟨"Error", some "Invalid session key xx"⟩]) = false := by
  decide
example : session_valid (some [⟨"Error", some "Not found: X"⟩]) = true := by decide
example : session_valid (some [⟨"Error", none⟩]) = false := by decide
example : lookup_call [⟨"call", some "W1AW"⟩] "ts" =
    .ok { call := "W1AW", fname := "", name := "", addr := "", state := "",
          country := "", timestamp := "ts" } := by decide
example : lookup_call [⟨"call", none⟩] "ts" = .crash := by decide
example : (get_session { present := true, ageMinutes := 1, content := " " }
    (fun _ => some []) [⟨"Key", some "k"⟩] "b").prompted = true := by decide

/-- C2: `load_cached_token()` returns the persisted token exactly when
the backing file exists and its age is within the 60-minute window
(the content as stripped on read, which is the persisted token itself
for any token written by `save_session`); for an absent file or one
older than 60 minutes it returns `none` regardless of content. -/
theorem c2_load_cached_token (fs : SessionFile) :
    (fs.present = false ∨ SESSION_LIFETIME_MIN < fs.ageMinutes →
      load_session fs = none) ∧
    (fs.present = true → fs.ageMinutes ≤ SESSION_LIFETIME_MIN →
      load_session fs = some (pstrip fs.content)) ∧
    (∀ (t : String) (a : ℚ), a ≤ SESSION_LIFETIME_MIN →
      load_session { save_session (pstrip t) with ageMinutes := a } =
        some (pstrip t)) := by
  refine ⟨?_, ?_, ?_⟩
  · rintro (h | h) <;> simp [load_session, h]
  · intro hp ha
    simp [load_session, hp, not_lt.mpr ha]
  · intro t a ha
    simp [load_session, save_session, not_lt.mpr ha, pstrip_idem]

/-- Witness for C2 at a concrete 30-minute-old file. -/
theorem c2_load_cached_token_witness :
    load_session { present := true, ageMinutes := 30, content := " tok " } =
      some "tok" := by
  rw [(c2_load_cached_token
    { present := true, ageMinutes := 30, content := " tok " }).2.1 rfl
    (by decide)]
  decide

/-- C7: an exchange response carrying a session key (a `Key` element
with text) makes `acquire_new_token()` persist the (stripped) key
verbatim and return exactly the persisted value; a later
`load_cached_token()` within the lifetime window returns that same
token (round trip). -/
theorem c7_exchange_round_trip (exch : Xml) (body : String)
    (fs : SessionFile) (e : Elem) (t : String)
    (hk : findTag exch "Key" = some e) (ht : e.text = some t) :
    new_session exch body fs = (.ok (pstrip t), save_session (pstrip t)) ∧
    (save_session (pstrip t)).content = pstrip t ∧
    (∀ a : ℚ, a ≤ SESSION_LIFETIME_MIN →
      load_session { save_session (pstrip t) with ageMinutes := a } =
        some (pstrip t)) := by
  refine ⟨?_, rfl, ?_⟩
  · simp only [new_session, hk, ht]
  · intro a ha
    simp [load_session, save_session, not_lt.mpr ha, pstrip_idem]

/-- Witness for C7 at a concrete exchange response. -/
theorem c7_exchange_round_trip_witness :
    new_session [⟨"Key", some " k1 "⟩] "raw"
        { present := false, ageMinutes := 0, content := "" } =
      (.ok "k1", save_session "k1") := by
  have h := (c7_exchange_round_trip [⟨"Key", some " k1 "⟩] "raw"
    { present := false, ageMinutes := 0, content := "" }
    ⟨"Key", some " k1 "⟩ " k1 " (by decide) rfl).1
  rw [h]
  decide

/-- C8: an exchange response with no `Key` element makes
`acquire_new_token()` exit fatally, carrying the raw response body as
diagnostic, and leaves the session file untouched (nothing is
persisted). -/
theorem c8_missing_key_fatal (exch : Xml) (body : String)
    (fs : SessionFile) (hk : findTag exch "Key" = none) :
    new_session exch body fs = (.fatalExit body, fs) := by
  unfold new_session
  rw [hk]

/-- Witness for C8 at a concrete key-less exchange response. -/
theorem c8_missing_key_fatal_witness :
    new_session [⟨"Error", some "Username/password incorrect"⟩] "rawbody"
        { present := true, ageMinutes := 5, content := "old" } =
      (.fatalExit "rawbody",
        { present := true, ageMinutes := 5, content := "old" }) :=
  c8_missing_key_fatal _ _ _ (by decide)

/-- C5: a lookup response containing an `Error` element makes
`lookup(token, callsign)` exit the process fatally: no record is
returned and, the run being over, no further query, retry or
re-authentication happens. -/
theorem c5_lookup_error_fatal (root : Xml) (now : String)
    (h : (findTag root "Error").isSome = true) :
    lookup_call root now = .fatalExit := by
  unfold lookup_call
  rw [if_pos h]

/-- Witness for C5 at a concrete error response. -/
theorem c5_lookup_error_fatal_witness :
    lookup_call [⟨"Error", some "Session Timeout"⟩] "2026-10-12 00:00:00" =
      .fatalExit :=
  c5_lookup_error_fatal _ _ (by decide)

/-- If any of the six extracted fields crashes (`get_field` is `none`),
`lookup_call` on an error-free response crashes. -/
lemma lookup_call_crash_of_field (root : Xml) (now : String)
    (hne : findTag root "Error" = none)
    (h : get_field root "call" = none ∨ get_field root "fname" = none ∨
      get_field root "name" = none ∨ get_field root "addr2" = none ∨
      get_field root "state" = none ∨ get_field root "country" = none) :
    lookup_call root now = .crash := by
  unfold lookup_call
  rw [if_neg (by rw [hne]; simp)]
  rcases h with h | h | h | h | h | h <;> rw [h] <;>
    rcases get_field root "call" with _ | c <;> try rfl
  all_goals rcases get_field root "fname" with _ | f <;> try rfl
  all_goals rcases get_field root "name" with _ | n <;> try rfl
  all_goals rcases get_field root "addr2" with _ | a <;> try rfl
  all_goals rcases get_field root "state" with _ | s <;> try rfl

/-- C9: on an error-free lookup response in which one of the six field
elements is present but carries no text, `lookup(token, callsign)`
raises an uncaught exception (the accessor dereferences the absent
text) instead of returning a record. -/
theorem c9_present_textless_field_crashes (root : Xml) (now : String)
    (tag : String) (e : Elem)
    (hne : findTag root "Error" = none)
    (htag : tag ∈ ["call", "fname", "name", "addr2", "state", "country"])
    (hf : findTag root tag = some e) (hte : e.text = none) :
    lookup_call root now = .crash := by
  have hget : get_field root tag = none := by
    simp only [get_field, hf, hte]
    rfl
  refine lookup_call_crash_of_field root now hne ?_
  fin_cases htag
  · exact Or.inl hget
  · exact Or.inr (Or.inl hget)
  · exact Or.inr (Or.inr (Or.inl hget))
  · exact Or.inr (Or.inr (Or.inr (Or.inl hget)))
  · exact Or.inr (Or.inr (Or.inr (Or.inr (Or.inl hget))))
  · exact Or.inr (Or.inr (Or.inr (Or.inr (Or.inr hget))))

/-- Witness for C9: a response whose `fname` element is `<fname/>`. -/
theorem c9_present_textless_field_crashes_witness :
    lookup_call [⟨"call", some "W1AW"⟩, ⟨"fname", none⟩] "ts" = .crash :=
  c9_present_textless_field_crashes _ "ts" "fname" ⟨"fname", none⟩
    (by decide) (by decide) (by decide) rfl

/-- Lemma: `get_field` succeeds on a tag whose element, when present,
carries text, and defaults to the empty string exactly on a wholly
absent element. -/
lemma get_field_some_of_text (root : Xml) (tag : String)
    (hwf : ∀ e ∈ findTag root tag, e.text ≠ none) :
    ∃ v, get_field root tag = some v ∧
      (findTag root tag = none → v = "") := by
  cases hft : findTag root tag with
  | none =>
    refine ⟨"", ?_, fun _ => rfl⟩
    simp only [get_field, hft]
  | some e =>
    cases hte : e.text with
    | none => exact absurd hte (hwf e (Option.mem_def.mpr hft))
    | some t =>
      refine ⟨pstrip t, ?_, fun hc => absurd hc (by simp)⟩
      simp only [get_field, hft, hte]
      rfl

/-- Counterexample to C6 as stated: the response `<call/>` is
error-free and is missing the `fname` field (among others), yet
`lookup_call` raises an uncaught exception instead of returning a
record with empty-string defaults — the `call` element is present with
no text, and its accessor crashes. -/
theorem c6_counterexample :
    findTag [(⟨"call", none⟩ : Elem)] "Error" = none ∧
    findTag [(⟨"call", none⟩ : Elem)] "fname" = none ∧
    lookup_call [⟨"call", none⟩] "ts" = .crash := by decide

/-- C6 amended: on an error-free lookup response in which each of the
six fixed field elements that is present carries text content (other
elements, e.g. container elements, may well be textless),
`lookup_call` returns a record, and every field among the fixed six
whose element is wholly absent is the empty string. -/
theorem c6_missing_fields_default (root : Xml) (now : String)
    (hne : findTag root "Error" = none)
    (hwf : ∀ tag ∈ ["call", "fname", "name", "addr2", "state", "country"],
      ∀ e ∈ findTag root tag, e.text ≠ none) :
    ∃ r, lookup_call root now = .ok r ∧
      (findTag root "call" = none → r.call = "") ∧
      (findTag root "fname" = none → r.fname = "") ∧
      (findTag root "name" = none → r.name = "") ∧
      (findTag root "addr2" = none → r.addr = "") ∧
      (findTag root "state" = none → r.state = "") ∧
      (findTag root "country" = none → r.country = "") := by
  obtain ⟨vc, hc, hc0⟩ := get_field_some_of_text root "call" (hwf "call" (by decide))
  obtain ⟨vf, hf, hf0⟩ := get_field_some_of_text root "fname" (hwf "fname" (by decide))
  obtain ⟨vn, hn, hn0⟩ := get_field_some_of_text root "name" (hwf "name" (by decide))
  obtain ⟨va, ha, ha0⟩ := get_field_some_of_text root "addr2" (hwf "addr2" (by decide))
  obtain ⟨vs, hs, hs0⟩ := get_field_some_of_text root "state" (hwf "state" (by decide))
  obtain ⟨vo, ho, ho0⟩ := get_field_some_of_text root "country" (hwf "country" (by decide))
  refine ⟨{ call := vc, fname := vf, name := vn, addr := va, state := vs,
            country := vo, timestamp := now }, ?_, hc0, hf0, hn0, ha0, hs0, ho0⟩
  unfold lookup_call
  rw [if_neg (by rw [hne]; simp), hc, hf, hn, ha, hs, ho]

/-- Witness for C6 (amended) at a concrete response carrying a
textless container element, a textful `name` field, and no other
fields. -/
theorem c6_missing_fields_default_witness :
    ∃ r, lookup_call [⟨"Count", none⟩, ⟨"name", some "X"⟩] "ts" = .ok r ∧
      r.fname = "" := by
  obtain ⟨r, hr, -, hf, -, -, -, -⟩ :=
    c6_missing_fields_default [⟨"Count", none⟩, ⟨"name", some "X"⟩] "ts"
      (by decide) (by decide)
  exact ⟨r, hr, hf (by decide)⟩

/-- Inverting `get_session`: a cached result means the loaded token was
returned as-is, nonempty, accepted by the probe, and the file was left
alone. -/
lemma get_session_cached_inv (fs : SessionFile) (probe : String → Option Xml)
    (exch : Xml) (body : String) (tok : String)
    (h : (get_session fs probe exch body).result = .cached tok) :
    load_session fs = some tok ∧ tok ≠ "" ∧
      session_valid (probe tok) = true ∧
      get_session fs probe exch body =
        { result := .cached tok, file := fs, probed := true,
          prompted := false } := by
  cases hl : load_session fs with
  | none =>
    simp only [get_session, hl] at h
    cases hx : (new_session exch body fs).1 <;> simp [lift_ns, hx] at h
  | some s =>
    by_cases hs : s = ""
    · subst hs
      simp only [get_session, hl, ne_eq, not_true_eq_false, if_false] at h
      cases hx : (new_session exch body fs).1 <;> simp [lift_ns, hx] at h
    · by_cases hv : session_valid (probe s) = true
      · simp only [get_session, hl] at h
        rw [if_pos hs, if_pos hv] at h
        simp at h
        subst h
        refine ⟨rfl, hs, hv, ?_⟩
        simp only [get_session, hl]
        rw [if_pos hs, if_pos hv]
      · simp only [get_session, hl] at h
        rw [if_pos hs, if_neg hv] at h
        cases hx : (new_session exch body fs).1 <;> simp [lift_ns, hx] at h

/-- If no usable nonempty probe-accepted token is cached, `get_session`
always enters `new_session` (prompts for credentials). -/
lemma get_session_prompted_of (fs : SessionFile)
    (probe : String → Option Xml) (exch : Xml) (body : String)
    (h : ∀ s, load_session fs = some s →
      s = "" ∨ session_valid (probe s) = false) :
    (get_session fs probe exch body).prompted = true := by
  cases hl : load_session fs with
  | none => simp [get_session, hl]
  | some s =>
    rcases h s hl with hs | hv
    · subst hs
      simp [get_session, hl]
    · simp only [get_session, hl]
      by_cases hs : s = ""
      · subst hs; simp
      · rw [if_pos hs, if_neg (by simp [hv])]

/-- C1: `get_valid_token()` never hands the lookup client a stale or
probe-rejected token: a cached token is only returned when the file is
present, within the 60-minute window, and the probe accepts it; and
whenever no token loads (absent/expired file) or the probe rejects the
loaded token, the run goes through fresh acquisition instead. -/
theorem c1_no_stale_or_rejected_token (fs : SessionFile)
    (probe : String → Option Xml) (exch : Xml) (body : String) :
    (∀ tok, (get_session fs probe exch body).result = .cached tok →
      fs.present = true ∧ fs.ageMinutes ≤ SESSION_LIFETIME_MIN ∧
        session_valid (probe tok) = true) ∧
    (load_session fs = none →
      (get_session fs probe exch body).prompted = true) ∧
    (∀ tok, load_session fs = some tok → session_valid (probe tok) = false →
      (get_session fs probe exch body).prompted = true) := by
  refine ⟨?_, ?_, ?_⟩
  · intro tok h
    obtain ⟨hl, -, hv, -⟩ := get_session_cached_inv fs probe exch body tok h
    obtain ⟨hp, ha, -⟩ := load_session_some fs tok hl
    exact ⟨hp, ha, hv⟩
  · intro hl
    refine get_session_prompted_of fs probe exch body (fun s hs => ?_)
    rw [hl] at hs
    exact absurd hs (by simp)
  · intro tok htok hv
    refine get_session_prompted_of fs probe exch body (fun s hs => ?_)
    rw [htok] at hs
    obtain rfl : tok = s := Option.some_inj.mp hs
    exact Or.inr hv

/-- Witness for C1: a fresh-looking cached token that the probe rejects
forces the credential prompt. -/
theorem c1_no_stale_or_rejected_token_witness :
    (get_session { present := true, ageMinutes := 10, content := "tok" }
      (fun _ => none) [⟨"Key", some "k2"⟩] "b").prompted = true :=
  (c1_no_stale_or_rejected_token
    { present := true, ageMinutes := 10, content := "tok" }
    (fun _ => none) [⟨"Key", some "k2"⟩] "b").2.2 "tok" (by decide) (by decide)

/-- Counterexample to C3 as stated: a file younger than 60 minutes
whose content strips to the empty string loads as the cached token
`""`; the probe would accept it (it accepts everything here), yet
`get_valid_token()` does not return the cached token and prompts for
credentials instead. -/
theorem c3_counterexample :
    load_session { present := true, ageMinutes := 0, content := " " } =
      some "" ∧
    session_valid ((fun _ => some []) "") = true ∧
    (get_session { present := true, ageMinutes := 0, content := " " }
      (fun _ => some []) [⟨"Key", some "k"⟩] "b").result ≠ .cached "" ∧
    (get_session { present := true, ageMinutes := 0, content := " " }
      (fun _ => some []) [⟨"Key", some "k"⟩] "b").prompted = true := by
  decide

/-- C3 amended: for every *nonempty* cached token whose file is younger
than 60 minutes and that the probe accepts, `get_valid_token()` returns
that cached token and does not prompt for credentials. -/
theorem c3_cached_token_reused (fs : SessionFile)
    (probe : String → Option Xml) (exch : Xml) (body : String)
    (tok : String) (hl : load_session fs = some tok) (hne : tok ≠ "")
    (hv : session_valid (probe tok) = true) :
    (get_session fs probe exch body).result = .cached tok ∧
    (get_session fs probe exch body).prompted = false := by
  simp only [get_session, hl]
  rw [if_pos hne, if_pos hv]
  exact ⟨rfl, rfl⟩

/-- Witness for C3 (amended) at a concrete young accepted token. -/
theorem c3_cached_token_reused_witness :
    (get_session { present := true, ageMinutes := 5, content := "tok" }
      (fun _ => some []) [] "b").result = .cached "tok" ∧
    (get_session { present := true, ageMinutes := 5, content := "tok" }
      (fun _ => some []) [] "b").prompted = false :=
  c3_cached_token_reused _ _ _ _ "tok" (by decide) (by decide) (by decide)

/-- C10: a session file that exists, is younger than 60 minutes, and
whose content is empty or whitespace-only is treated as an absent
cache: the probe is never issued (the run is exactly the `new_session`
run, for every probe), and a new token is acquired. -/
theorem c10_empty_token_skips_probe (fs : SessionFile)
    (probe : String → Option Xml) (exch : Xml) (body : String)
    (hp : fs.present = true) (ha : fs.ageMinutes ≤ SESSION_LIFETIME_MIN)
    (hc : pstrip fs.content = "") :
    get_session fs probe exch body =
      { result := lift_ns (new_session exch body fs).1,
        file := (new_session exch body fs).2,
        probed := false, prompted := true } := by
  have hl : load_session fs = some "" := by
    simp [load_session, hp, not_lt.mpr ha, hc]
  simp [get_session, hl]

/-- Witness for C10 at a concrete whitespace-only young file. -/
theorem c10_empty_token_skips_probe_witness :
    pstrip "  " = "" ∧
    get_session { present := true, ageMinutes := 1, content := "  " }
        (fun _ => some []) [⟨"Key", some "k3"⟩] "b" =
      { result := .fresh "k3", file := save_session "k3",
        probed := false, prompted := true } := by
  constructor
  · decide
  · rw [c10_empty_token_skips_probe
      { present := true, ageMinutes := 1, content := "  " }
      (fun _ => some []) [⟨"Key", some "k3"⟩] "b" rfl (by decide) (by decide)]
    decide

/-- The per-element test of `session_valid` succeeds (marks the probe
invalid) exactly on a textless `Error` element or one whose text
contains the marker. -/
lemma error_triggers_iff (e : Elem) :
    error_triggers e = true ↔
      e.text = none ∨
        ∃ s, e.text = some s ∧ str_in "Invalid session key" s = true := by
  cases hte : e.text <;> simp [error_triggers, hte]

/-- Counterexample to C4 as stated: the probe response `<Error/>` (an
`Error` element with no text content) is neither a network/parse
failure nor carries the invalid-session marker, yet `validate` returns
false — the membership test on the absent text raises, and the blanket
`except` maps it to false. -/
theorem c4_counterexample :
    session_valid (some [⟨"Error", none⟩]) = false ∧
    some [(⟨"Error", none⟩ : Elem)] ≠ (none : Option Xml) ∧
    has_marker [⟨"Error", none⟩] = false := by
  decide

/-- C4 amended: `validate(token)` returns false exactly when the probe
suffers a network/parse failure, or the response has an `Error` element
carrying the invalid-session marker, or an `Error` element with no text
at all (whose marker test raises and is caught as failure); every other
response — including unrelated `Error` text — yields true. -/
theorem c4_validate_false_iff (resp : Option Xml) :
    session_valid resp = false ↔
      resp = none ∨
        ∃ root, resp = some root ∧ ∃ e ∈ iterTag root "Error",
          (e.text = none ∨
            ∃ s, e.text = some s ∧ str_in "Invalid session key" s = true) := by
  cases resp with
  | none => simp [session_valid]
  | some root =>
    simp only [session_valid, Option.some_inj, reduceCtorEq, false_or]
    constructor
    · intro h
      have h' : (iterTag root "Error").any error_triggers = true := by
        simpa using h
      obtain ⟨e, he, ht⟩ := List.any_eq_true.mp h'
      exact ⟨root, rfl, e, he, (error_triggers_iff e).mp ht⟩
    · rintro ⟨r, rfl, e, he, ht⟩
      have h' : (iterTag root "Error").any error_triggers = true :=
        List.any_eq_true.mpr ⟨e, he, (error_triggers_iff e).mpr ht⟩
      simp [h']
